import Mathlib

/-!
Shallow embedding of the interactive logic of `src/App.tsx`: the pointer
tracker (`BlueprintCursor`), the scroll-driven animation mapping in `App`
(`heroScale`, `heroOpacity`, spring smoothing), and the decorative particle
field (`HoudiniCloud`). Screen coordinates and animation values are modelled
as rationals; DOM event targets as records of the fields the handlers read.
-/

namespace Sraute

/-- Hover classification held in the `hoverType` state of `BlueprintCursor`:
one of the string constants 'none', 'link', 'text'. -/
inductive HoverType where
  | none
  | link
  | text
deriving DecidableEq, Repr

/-- The fields of a pointer-over event target that `handleOver` reads: the
computed cursor style, the tag name, and the rendered innerText. -/
structure Target where
  cursor : String
  tagName : String
  innerText : String
deriving DecidableEq, Repr

/-- Embedding of `handleOver` (src/App.tsx lines 35-45): classifies the event
target; the result is written into the `hoverType` state. The truthiness
guard `target.innerText && ...` becomes an explicit nonemptiness conjunct. -/
def handleOver (target : Target) : HoverType :=
  if target.cursor = "pointer" ∨ target.tagName = "A" ∨ target.tagName = "BUTTON" then
    HoverType.link
  else if target.innerText ≠ "" ∧ target.innerText.length > 10 then
    HoverType.text
  else
    HoverType.none

/-- The classification rule as the spec words it: `link` if the computed
cursor style is "pointer" or the element is an anchor/button tag; else `text`
if the rendered text content exceeds 10 characters; else `none`, the link
check taking precedence. Stated separately so that `handleOver` can be proved
to refine it. -/
def hoverClassSpec (target : Target) : HoverType :=
  if target.cursor = "pointer" ∨ target.tagName = "A" ∨ target.tagName = "BUTTON" then
    HoverType.link
  else if 10 < target.innerText.length then
    HoverType.text
  else
    HoverType.none

/-- Kinds of window-level listeners `BlueprintCursor` registers. -/
inductive EventKind where
  | mousemove
  | mouseover
deriving DecidableEq, Repr

/-- State of one `BlueprintCursor` instance: the two motion values `mouseX`
and `mouseY`, the `hoverType` state, and the window listeners currently
registered by this component. -/
structure CursorState where
  mouseX : ℚ
  mouseY : ℚ
  hoverType : HoverType
  listeners : List EventKind
deriving DecidableEq, Repr

/-- Embedding of `handleMove` (src/App.tsx lines 31-34): stores the event's
clientX/clientY into the `mouseX`/`mouseY` motion values. -/
def handleMove (clientX clientY : ℚ) (s : CursorState) : CursorState :=
  { s with mouseX := clientX, mouseY := clientY }

/-- `window.addEventListener`: appends a listener registration. -/
def addEventListener (k : EventKind) (s : CursorState) : CursorState :=
  { s with listeners := s.listeners ++ [k] }

/-- `window.removeEventListener`: erases one registration of the listener. -/
def removeEventListener (k : EventKind) (s : CursorState) : CursorState :=
  { s with listeners := s.listeners.erase k }

/-- State of `BlueprintCursor` before its effect runs: `useMotionValue(-100)`
twice and `useState('none')` (src/App.tsx lines 26-28), no listeners yet. -/
def initCursor : CursorState :=
  { mouseX := -100, mouseY := -100, hoverType := HoverType.none, listeners := [] }

/-- Mounting `BlueprintCursor`: its effect registers the mousemove listener
and then the mouseover listener (src/App.tsx lines 46-47). -/
def mountCursor : CursorState :=
  addEventListener EventKind.mouseover (addEventListener EventKind.mousemove initCursor)

/-- The effect cleanup (src/App.tsx lines 48-51): removes the mousemove
listener and then the mouseover listener. -/
def unmountCursor (s : CursorState) : CursorState :=
  removeEventListener EventKind.mouseover (removeEventListener EventKind.mousemove s)

/-- A window event that can reach the handlers: a mousemove carrying client
coordinates, or a mouseover carrying its target. -/
inductive MouseEvent where
  | mousemove (clientX clientY : ℚ)
  | mouseover (target : Target)
deriving DecidableEq, Repr

/-- Window dispatch: an event runs the component's handler exactly when the
matching listener is registered, otherwise the state is untouched. -/
def dispatchEvent (e : MouseEvent) (s : CursorState) : CursorState :=
  match e with
  | MouseEvent.mousemove x y =>
      if EventKind.mousemove ∈ s.listeners then handleMove x y s else s
  | MouseEvent.mouseover t =>
      if EventKind.mouseover ∈ s.listeners then { s with hoverType := handleOver t } else s

/-- Crosshair scale (src/App.tsx line 71): 1.5 when hovering a link, else 1. -/
def crosshairScale (h : HoverType) : ℚ :=
  if h = HoverType.link then 3/2 else 1

/-- Crosshair rotation in degrees (src/App.tsx line 72): 45 when hovering a
link, else 0. -/
def crosshairRotate (h : HoverType) : ℚ :=
  if h = HoverType.link then 45 else 0

/-- Whether the EXECUTE_CMD label is rendered (src/App.tsx line 79): only
when hovering a link. -/
def labelVisible (h : HoverType) : Bool :=
  h = HoverType.link

/-- Embedding of the `useMemo` body of `HoudiniCloud` (src/App.tsx lines
96-104): fills a flat coordinate array of size 2000*3, drawing one
`Math.random()` sample per coordinate; `rnd j` is the j-th sample drawn. -/
def generatePoints (rnd : ℕ → ℚ) : Array ℚ :=
  (List.range 2000).foldl
    (fun p i =>
      ((p.setD (i * 3) ((rnd (i * 3) - 1/2) * 10)).setD (i * 3 + 1)
          ((rnd (i * 3 + 1) - 1/2) * 10)).setD (i * 3 + 2) ((rnd (i * 3 + 2) - 1/2) * 10))
    (Array.mkArray (2000 * 3) 0)

/-- State of one `HoudiniCloud` instance: the memoized point array, the
number of times the memo body has run, and the rotation written per frame. -/
structure HoudiniState where
  points : Array ℚ
  computeCount : ℕ
  rotX : ℚ
  rotY : ℚ
deriving Repr

/-- Mounting `HoudiniCloud`: `useMemo` with an empty dependency list runs its
body exactly once. -/
def mountHoudini (rnd : ℕ → ℚ) : HoudiniState :=
  { points := generatePoints rnd, computeCount := 1, rotX := 0, rotY := 0 }

/-- A re-render of a mounted `HoudiniCloud`: the empty dependency list means
`useMemo` returns the memoized array without running the body again. -/
def rerenderHoudini (s : HoudiniState) : HoudiniState := s

/-- Embedding of the `useFrame` callback (src/App.tsx lines 107-110): writes
the rotation from the elapsed time `t`, with `sin` the host's sine. -/
def frameHoudini (sin : ℚ → ℚ) (t : ℚ) (s : HoudiniState) : HoudiniState :=
  { s with rotY := t * (1/10), rotX := sin (t * (1/5)) * (1/10) }

/-- A run of animation frames at the given elapsed times. -/
def applyFrames (sin : ℚ → ℚ) (ts : List ℚ) (s : HoudiniState) : HoudiniState :=
  ts.foldl (fun s t => frameHoudini sin t s) s

/-- Clamp to [0, 1], the default endpoint behaviour of framer-motion
transforms. -/
def clamp01 (t : ℚ) : ℚ := max 0 (min 1 t)

/-- Model of framer-motion `useTransform` over a single segment: maps the
input range [a, b] linearly onto the output range [c, d], clamping at the
range endpoints (the library default). -/
def useTransform (a b c d v : ℚ) : ℚ :=
  c + clamp01 ((v - a) / (b - a)) * (d - c)

/-- Embedding of `heroScale` (src/App.tsx line 162):
`useTransform(springScroll, [0, 0.2], [1, 1.2])`. -/
def heroScale (springScroll : ℚ) : ℚ :=
  useTransform 0 (1/5) 1 (6/5) springScroll

/-- Embedding of `heroOpacity` (src/App.tsx line 163):
`useTransform(springScroll, [0, 0.15], [1, 0])`. -/
def heroOpacity (springScroll : ℚ) : ℚ :=
  useTransform 0 (3/20) 1 0 springScroll

/-- A spring configuration as passed to `useSpring`. -/
structure SpringConfig where
  stiffness : ℚ
  damping : ℚ
deriving DecidableEq, Repr

/-- The configuration `App` passes to `useSpring` (src/App.tsx line 160). -/
def springScrollConfig : SpringConfig := { stiffness := 60, damping := 20 }

/-- Model of framer-motion `useScroll().scrollYProgress`: the vertical scroll
offset normalized by the scrollable height and clamped to [0, 1]. -/
def scrollYProgress (offset range : ℚ) : ℚ := clamp01 (offset / range)

/-- State of a spring motion value: current position and velocity. -/
structure SpringState where
  pos : ℚ
  vel : ℚ
deriving DecidableEq, Repr

/-- One explicit-Euler step of a damped spring toward `target`: the model of
`useSpring` integrating its configuration over a frame of length `dt`. -/
def springStep (cfg : SpringConfig) (target dt : ℚ) (st : SpringState) : SpringState :=
  { pos := st.pos + st.vel * dt,
    vel := st.vel + (cfg.stiffness * (target - st.pos) - cfg.damping * st.vel) * dt }

/-- The motion values `App` holds (src/App.tsx lines 159-163): the raw scroll
progress and the spring value that smooths it. -/
structure AppMotionState where
  scrollYProgress : ℚ
  springScroll : SpringState
deriving DecidableEq, Repr

/-- A frame of the smoothing spring: `springScroll` chases the raw progress
under the configuration of src/App.tsx line 160. -/
def appSpringFrame (dt : ℚ) (st : AppMotionState) : AppMotionState :=
  { st with springScroll := springStep springScrollConfig st.scrollYProgress dt st.springScroll }

/-- `heroScale` as `App` wires it: read from the smoothed spring value. -/
def appHeroScale (st : AppMotionState) : ℚ := heroScale st.springScroll.pos

/-- `heroOpacity` as `App` wires it: read from the smoothed spring value. -/
def appHeroOpacity (st : AppMotionState) : ℚ := heroOpacity st.springScroll.pos

/-! Helper lemmas on the clamped interpolation. -/

theorem clamp01_of_le_zero {t : ℚ} (h : t ≤ 0) : clamp01 t = 0 := by
  unfold clamp01
  rw [min_eq_right (h.trans zero_le_one), max_eq_left h]

theorem clamp01_of_one_le {t : ℚ} (h : 1 ≤ t) : clamp01 t = 1 := by
  unfold clamp01
  rw [min_eq_left h, max_eq_right zero_le_one]

theorem clamp01_of_mem {t : ℚ} (h0 : 0 ≤ t) (h1 : t ≤ 1) : clamp01 t = t := by
  unfold clamp01
  rw [min_eq_right h1, max_eq_right h0]

theorem clamp01_mono {a b : ℚ} (h : a ≤ b) : clamp01 a ≤ clamp01 b :=
  max_le_max le_rfl (min_le_min le_rfl h)

theorem clamp01_nonneg (t : ℚ) : 0 ≤ clamp01 t :=
  le_max_left 0 _

theorem clamp01_le_one (t : ℚ) : clamp01 t ≤ 1 :=
  max_le zero_le_one (min_le_left 1 t)

theorem heroScale_eval (s : ℚ) : heroScale s = 1 + clamp01 (5 * s) * (1/5) := by
  unfold heroScale useTransform
  rw [show (s - 0) / ((1 : ℚ)/5 - 0) = 5 * s from by ring]
  norm_num

theorem heroOpacity_eval (s : ℚ) : heroOpacity s = 1 - clamp01 (20 * s / 3) := by
  unfold heroOpacity useTransform
  rw [show (s - 0) / ((3 : ℚ)/20 - 0) = 20 * s / 3 from by ring]
  ring

/-! The claims. -/

/-- Claim C1: for every pointer-over target, the resulting classification is
`link` when the computed cursor is "pointer" or the target is an anchor or
button element; otherwise `text` when the rendered text is longer than 10
characters; otherwise `none` — the link check taking precedence. `handleOver`
agrees with this rule on every target. -/
theorem spec_C1 (t : Target) : handleOver t = hoverClassSpec t := by
  unfold handleOver hoverClassSpec
  by_cases h1 : t.cursor = "pointer" ∨ t.tagName = "A" ∨ t.tagName = "BUTTON"
  · rw [if_pos h1, if_pos h1]
  · rw [if_neg h1, if_neg h1]
    by_cases h2 : 10 < t.innerText.length
    · have hne : t.innerText ≠ "" := by
        intro h
        rw [h] at h2
        exact absurd h2 (by decide)
      rw [if_pos ⟨hne, h2⟩, if_pos h2]
    · rw [if_neg (fun hc => h2 hc.2), if_neg h2]

/-- Claim C2: after `handleMove` runs for a pointer-move carrying (x, y), the
stored pointer position equals exactly (x, y) — no throttling, transformation
or clamping is applied. -/
theorem spec_C2 (x y : ℚ) (s : CursorState) :
    (handleMove x y s).mouseX = x ∧ (handleMove x y s).mouseY = y :=
  ⟨rfl, rfl⟩

/-- Claim C3: heroScale maps smoothed progress linearly from [0, 0.2] to
[1, 1.2]: it is 1 at 0, 1.2 at 0.2, equals 1 + s on [0, 0.2], and clamps at
1.2 for every progress beyond 0.2. -/
theorem spec_C3 :
    heroScale 0 = 1 ∧ heroScale (1/5) = 6/5
    ∧ (∀ s : ℚ, 1/5 < s → heroScale s = 6/5)
    ∧ (∀ s : ℚ, 0 ≤ s → s ≤ 1/5 → heroScale s = 1 + s) := by
  refine ⟨?_, ?_, ?_, ?_⟩
  · rw [heroScale_eval, clamp01_of_le_zero (by norm_num)]
    norm_num
  · rw [heroScale_eval, clamp01_of_one_le (by norm_num)]
    norm_num
  · intro s hs
    rw [heroScale_eval, clamp01_of_one_le (by linarith)]
    norm_num
  · intro s h0 h1
    rw [heroScale_eval, clamp01_of_mem (by linarith) (by linarith)]
    ring

/-- Witness for C3: concrete evaluations at s = 1 (clamped) and
s = 1/10 (linear segment). -/
theorem spec_C3_witness : heroScale 1 = 6/5 ∧ heroScale (1/10) = 1 + 1/10 :=
  ⟨spec_C3.2.2.1 1 (by norm_num), spec_C3.2.2.2 (1/10) (by norm_num) (by norm_num)⟩

/-- Claim C4: heroOpacity maps smoothed progress linearly from [0, 0.15] to
[1, 0]: it is 1 at 0, 0 at 0.15, equals 1 - 20s/3 on [0, 0.15], and clamps
at 0 for every progress beyond 0.15. -/
theorem spec_C4 :
    heroOpacity 0 = 1 ∧ heroOpacity (3/20) = 0
    ∧ (∀ s : ℚ, 3/20 < s → heroOpacity s = 0)
    ∧ (∀ s : ℚ, 0 ≤ s → s ≤ 3/20 → heroOpacity s = 1 - 20 * s / 3) := by
  refine ⟨?_, ?_, ?_, ?_⟩
  · rw [heroOpacity_eval, clamp01_of_le_zero (by norm_num)]
    norm_num
  · rw [heroOpacity_eval, clamp01_of_one_le (by norm_num)]
    norm_num
  · intro s hs
    rw [heroOpacity_eval, clamp01_of_one_le (by linarith)]
    norm_num
  · intro s h0 h1
    rw [heroOpacity_eval, clamp01_of_mem (by linarith) (by linarith)]

/-- Witness for C4: concrete evaluations at s = 1/2 (clamped) and
s = 3/40 (linear segment). -/
theorem spec_C4_witness : heroOpacity (1/2) = 0 ∧ heroOpacity (3/40) = 1 - 20 * (3/40) / 3 :=
  ⟨spec_C4.2.2.1 (1/2) (by norm_num), spec_C4.2.2.2 (3/40) (by norm_num) (by norm_num)⟩

/-- Claim C5: over its mounted lifetime the tracker registers exactly the two
window listeners mousemove and mouseover; unmounting removes both, and after
unmount every subsequent pointer event leaves the whole state — pointer
position and hover classification included — unchanged. -/
theorem spec_C5 :
    mountCursor.listeners = [EventKind.mousemove, EventKind.mouseover]
    ∧ (unmountCursor mountCursor).listeners = []
    ∧ ∀ e : MouseEvent, dispatchEvent e (unmountCursor mountCursor) = unmountCursor mountCursor := by
  refine ⟨rfl, rfl, ?_⟩
  intro e
  cases e with
  | mousemove x y => rfl
  | mouseover t => rfl

/-- Claim C6: the crosshair style is a function of the hover classification:
scale 1.5, rotation 45 and a visible label exactly when it is `link`; scale
1, rotation 0 and a hidden label for each of the other two values. -/
theorem spec_C6 :
    crosshairScale HoverType.link = 3/2 ∧ crosshairRotate HoverType.link = 45
    ∧ labelVisible HoverType.link = true
    ∧ crosshairScale HoverType.none = 1 ∧ crosshairRotate HoverType.none = 0
    ∧ labelVisible HoverType.none = false
    ∧ crosshairScale HoverType.text = 1 ∧ crosshairRotate HoverType.text = 0
    ∧ labelVisible HoverType.text = false :=
  ⟨rfl, rfl, rfl, rfl, rfl, rfl, rfl, rfl, rfl⟩

theorem generatePoints_size (rnd : ℕ → ℚ) : (generatePoints rnd).size = 6000 := by
  unfold generatePoints
  have h : ∀ (l : List ℕ) (a : Array ℚ),
      (l.foldl
        (fun p i =>
          ((p.setD (i * 3) ((rnd (i * 3) - 1/2) * 10)).setD (i * 3 + 1)
              ((rnd (i * 3 + 1) - 1/2) * 10)).setD (i * 3 + 2) ((rnd (i * 3 + 2) - 1/2) * 10))
        a).size = a.size := by
    intro l
    induction l with
    | nil => intro a; rfl
    | cons x xs ih =>
        intro a
        rw [List.foldl_cons, ih]
        simp [Array.size_setD]
  rw [h]
  simp [Array.size_mkArray]

attribute [irreducible] generatePoints

theorem mountHoudini_points (rnd : ℕ → ℚ) : (mountHoudini rnd).points = generatePoints rnd :=
  rfl

theorem rerenderHoudini_iterate (n : ℕ) (s : HoudiniState) : rerenderHoudini^[n] s = s := by
  induction n with
  | zero => rfl
  | succ k ih =>
      rw [Function.iterate_succ_apply]
      exact ih

theorem applyFrames_preserves (sin : ℚ → ℚ) (ts : List ℚ) (s : HoudiniState) :
    (applyFrames sin ts s).points = s.points
    ∧ (applyFrames sin ts s).computeCount = s.computeCount := by
  induction ts generalizing s with
  | nil => exact ⟨rfl, rfl⟩
  | cons t ts ih => exact ⟨(ih (frameHoudini sin t s)).1, (ih (frameHoudini sin t s)).2⟩

/-- Claim C7: the particle field generates a coordinate array of length 6000
(2000 3D points) and the generation runs exactly once per instance: after any
number of re-renders and animation frames the memoized array is unchanged and
the memo body has still run only once. -/
theorem spec_C7 (rnd : ℕ → ℚ) (sin : ℚ → ℚ) (n : ℕ) (ts : List ℚ) :
    (mountHoudini rnd).points.size = 6000
    ∧ (mountHoudini rnd).computeCount = 1
    ∧ (applyFrames sin ts (rerenderHoudini^[n] (mountHoudini rnd))).points
        = (mountHoudini rnd).points
    ∧ (applyFrames sin ts (rerenderHoudini^[n] (mountHoudini rnd))).computeCount = 1 := by
  refine ⟨?_, rfl, ?_, ?_⟩
  · rw [mountHoudini_points]
    exact generatePoints_size rnd
  · rw [rerenderHoudini_iterate]
    exact (applyFrames_preserves sin ts (mountHoudini rnd)).1
  · rw [rerenderHoudini_iterate]
    exact (applyFrames_preserves sin ts (mountHoudini rnd)).2

/-- Claim C8: the raw scroll progress is normalized into [0, 1]; it is
smoothed by the spring configured with stiffness 60 and damping 20; and both
derived animation values are computed from the smoothed spring value, not
from the raw progress — two states agreeing on the spring value always get
the same derived values, while a state can disagree with the transform of its
own raw progress. -/
theorem spec_C8 :
    springScrollConfig.stiffness = 60 ∧ springScrollConfig.damping = 20
    ∧ (∀ offset range : ℚ, 0 ≤ scrollYProgress offset range ∧ scrollYProgress offset range ≤ 1)
    ∧ (∀ (dt : ℚ) (st : AppMotionState), (appSpringFrame dt st).springScroll
        = springStep { stiffness := 60, damping := 20 } st.scrollYProgress dt st.springScroll)
    ∧ (∀ s1 s2 : AppMotionState, s1.springScroll = s2.springScroll →
        appHeroScale s1 = appHeroScale s2 ∧ appHeroOpacity s1 = appHeroOpacity s2)
    ∧ (∃ st : AppMotionState, appHeroScale st ≠ heroScale st.scrollYProgress) := by
  refine ⟨rfl, rfl, ?_, ?_, ?_, ?_⟩
  · intro offset range
    exact ⟨clamp01_nonneg _, clamp01_le_one _⟩
  · intro dt st
    rfl
  · intro s1 s2 h
    unfold appHeroScale appHeroOpacity
    rw [h]
    exact ⟨rfl, rfl⟩
  · refine ⟨{ scrollYProgress := 1, springScroll := { pos := 0, vel := 0 } }, ?_⟩
    show heroScale 0 ≠ heroScale 1
    rw [heroScale_eval, heroScale_eval, clamp01_of_le_zero (by norm_num),
      clamp01_of_one_le (by norm_num)]
    norm_num

/-- Witness for C8: two concrete states with the same spring value but
different raw progress yield the same heroScale. -/
theorem spec_C8_witness :
    appHeroScale { scrollYProgress := 0, springScroll := { pos := 1/2, vel := 0 } }
      = appHeroScale { scrollYProgress := 1, springScroll := { pos := 1/2, vel := 0 } } :=
  (spec_C8.2.2.2.2.1
    { scrollYProgress := 0, springScroll := { pos := 1/2, vel := 0 } }
    { scrollYProgress := 1, springScroll := { pos := 1/2, vel := 0 } } rfl).1

/-- Claim C9: before any pointer event is handled, the tracker holds pointer
position (-100, -100) and hover classification none — both in the freshly
created state and after the mount effect registers the listeners. -/
theorem spec_C9 :
    initCursor.mouseX = -100 ∧ initCursor.mouseY = -100
    ∧ initCursor.hoverType = HoverType.none
    ∧ mountCursor.mouseX = -100 ∧ mountCursor.mouseY = -100
    ∧ mountCursor.hoverType = HoverType.none :=
  ⟨rfl, rfl, rfl, rfl, rfl, rfl⟩

/-- Claim C10: heroScale is monotone non-decreasing and heroOpacity monotone
non-increasing in the smoothed progress over [0, 1], with heroScale always in
[1, 1.2] and heroOpacity always in [0, 1]. -/
theorem spec_C10 :
    (∀ s1 s2 : ℚ, 0 ≤ s1 → s1 ≤ s2 → s2 ≤ 1 →
      heroScale s1 ≤ heroScale s2 ∧ heroOpacity s2 ≤ heroOpacity s1)
    ∧ (∀ s : ℚ, 1 ≤ heroScale s ∧ heroScale s ≤ 6/5)
    ∧ (∀ s : ℚ, 0 ≤ heroOpacity s ∧ heroOpacity s ≤ 1) := by
  refine ⟨?_, ?_, ?_⟩
  · intro s1 s2 h0 h12 h1
    constructor
    · have h := clamp01_mono (show 5 * s1 ≤ 5 * s2 by linarith)
      rw [heroScale_eval, heroScale_eval]
      linarith
    · have h := clamp01_mono (show 20 * s1 / 3 ≤ 20 * s2 / 3 by linarith)
      rw [heroOpacity_eval, heroOpacity_eval]
      linarith
  · intro s
    have h0 := clamp01_nonneg (5 * s)
    have h1 := clamp01_le_one (5 * s)
    rw [heroScale_eval]
    constructor <;> linarith
  · intro s
    have h0 := clamp01_nonneg (20 * s / 3)
    have h1 := clamp01_le_one (20 * s / 3)
    rw [heroOpacity_eval]
    constructor <;> linarith

/-- Witness for C10: monotonicity applied at the endpoints 0 and 1. -/
theorem spec_C10_witness : heroScale 0 ≤ heroScale 1 ∧ heroOpacity 1 ≤ heroOpacity 0 :=
  spec_C10.1 0 1 (by norm_num) (by norm_num) (by norm_num)

end Sraute
